import Mathlib

/-!
Shallow embedding of `lib/runsimgh/runsimgh.go` (package `runsimgh`):
the GitHub check-run integration lifecycle. Go pointer fields (`*string`,
`*github.CheckRun`, ...) become `Option`; nil-pointer dereference and
`panic` become a distinguished `Fatal`/`Outcome.fatal` result; the external
collaborators (DynamoDB state store, SSM secret provider, GitHub API) are
modelled as an explicit environment of response functions, and every remote
call the code makes is recorded in an event trace in execution order.
-/

/-- Go's `const primaryKey = "IntegrationType"`. -/
def primaryKey : String := "IntegrationType"

/-- Go's `const tableName = "SimulationState"`. -/
def tableName : String := "SimulationState"

/-- Model of `runsimaws.DdbTable` after `Config(region, primaryKey, tableName)`. -/
structure DdbTable where
  Region : String
  PrimaryKey : String
  TableName : String
deriving DecidableEq, Repr

/-- Model of `github.PullRequestBranch` (fields `Ref *string`, `SHA *string`). -/
structure PullRequestBranch where
  Ref : Option String
  SHA : Option String
deriving DecidableEq, Repr

/-- Model of `github.PullRequest` (field `Head *PullRequestBranch`). -/
structure PullRequest where
  Head : Option PullRequestBranch
deriving DecidableEq, Repr

/-- Model of `github.CheckRun` restricted to the fields the package touches:
`ID *int64`, `Name *string`, `Conclusion *string`. -/
structure CheckRun where
  ID : Option Int
  Name : Option String
  Conclusion : Option String
deriving DecidableEq, Repr

/-- go-github's nil-safe getter `(*CheckRun).GetConclusion` lifted to an
optional check run: `""` when the run or the field is absent. -/
def crGetConclusion (o : Option CheckRun) : String :=
  (o.bind (·.Conclusion)).getD ""

/-- go-github's nil-safe getter `(*CheckRun).GetName`. -/
def crGetName (o : Option CheckRun) : String :=
  (o.bind (·.Name)).getD ""

/-- go-github's nil-safe getter `(*CheckRun).GetID`: `0` when absent. -/
def crGetID (o : Option CheckRun) : Int :=
  (o.bind (·.ID)).getD 0

/-- go-github's nil-safe getter `(*PullRequestBranch).GetRef`. -/
def headGetRef (h : Option PullRequestBranch) : String :=
  (h.bind (·.Ref)).getD ""

/-- go-github's nil-safe getter `(*PullRequestBranch).GetSHA`. -/
def headGetSHA (h : Option PullRequestBranch) : String :=
  (h.bind (·.SHA)).getD ""

/-- The `runsimgh.Integration` struct. `Client *github.Client` is modelled as
an opaque token (`Option Nat`): the claims only inspect whether and when it
is installed. All pointer fields start out nil. -/
structure Integration where
  Client : Option Nat := none
  PR : Option PullRequest := none
  ActiveCheckRun : Option CheckRun := none
  State : Option DdbTable := none
  IntegrationType : Option String := none
  CheckRunName : Option String := none
  InstallationID : Option String := none
  IntegrationID : Option String := none
  RepoOwner : Option String := none
  RepoName : Option String := none
  PrNum : Option String := none
deriving DecidableEq, Repr

/-- Result of a Go function that can `panic` instead of returning: `.fatal`
is the panic path, which the caller cannot catch as an ordinary error. -/
inductive Fatal (α : Type) where
  | ok : α → Fatal α
  | fatal : String → Fatal α
deriving DecidableEq, Repr

/-- Overall outcome of a method: normal return with `err == nil`, normal
return with a non-nil `err`, or an uncaught panic. -/
inductive Outcome where
  | ok : Outcome
  | err : String → Outcome
  | fatal : String → Outcome
deriving DecidableEq, Repr

/-- `strconv.Atoi`: optional sign followed by at least one digit, i.e.
`ParseInt(s, 10, 0)` with Go's `int` being 64-bit. A syntactically valid
number outside the signed-64-bit range yields `ErrRange`, a non-nil error
like any other parse failure (the accessors below `panic(err)` on it), so
the model returns `none` there too. -/
def atoi (s : String) : Option Int :=
  let digits : List Char → Option Nat := fun ds =>
    if ds ≠ [] ∧ ds.all (·.isDigit) then
      some (ds.foldl (fun a c => a * 10 + (c.toNat - 48)) 0)
    else none
  let signed : Option Int :=
    match s.data with
    | '+' :: rest => (digits rest).map (Int.ofNat)
    | '-' :: rest => (digits rest).map (fun n => -(n : Int))
    | ds => (digits ds).map (Int.ofNat)
  match signed with
  | some n => if -(2 ^ 63) ≤ n ∧ n < 2 ^ 63 then some n else none
  | none => none

/-- `func (gh *Integration) GetOwner() string { return *gh.RepoOwner }`:
dereferencing a nil pointer panics. -/
def GetOwner (gh : Integration) : Fatal String :=
  match gh.RepoOwner with
  | some s => .ok s
  | none => .fatal "nil dereference"

/-- `func (gh *Integration) GetRepo() string`. -/
def GetRepo (gh : Integration) : Fatal String :=
  match gh.RepoName with
  | some s => .ok s
  | none => .fatal "nil dereference"

/-- `func (gh *Integration) GetCheckRunName() string`. -/
def GetCheckRunName (gh : Integration) : Fatal String :=
  match gh.CheckRunName with
  | some s => .ok s
  | none => .fatal "nil dereference"

/-- `GetPrNum`: `strconv.Atoi(*gh.PrNum)`, panicking both on a nil pointer
and on a malformed numeric string (`panic(err)`). -/
def GetPrNum (gh : Integration) : Fatal Int :=
  match gh.PrNum with
  | none => .fatal "nil dereference"
  | some s =>
    match atoi s with
    | some n => .ok n
    | none => .fatal "strconv.Atoi"

/-- `GetAppInstID`: `strconv.Atoi(*gh.InstallationID)` with `panic(err)`. -/
def GetAppInstID (gh : Integration) : Fatal Int :=
  match gh.InstallationID with
  | none => .fatal "nil dereference"
  | some s =>
    match atoi s with
    | some n => .ok n
    | none => .fatal "strconv.Atoi"

/-- `GetAppIntID`: `strconv.Atoi(*gh.IntegrationID)` with `panic(err)`. -/
def GetAppIntID (gh : Integration) : Fatal Int :=
  match gh.IntegrationID with
  | none => .fatal "nil dereference"
  | some s =>
    match atoi s with
    | some n => .ok n
    | none => .fatal "strconv.Atoi"

/-- `ValidateState`: checks the six required fields in the source's order,
returning the first missing one (messages verbatim from the source,
including the stray trailing space after `InstallationID`). -/
def ValidateState (gh : Integration) : Except String Unit :=
  if gh.IntegrationID = none then .error "ErrorMissingAttribute: IntegrationID"
  else if gh.InstallationID = none then .error "ErrorMissingAttribute: InstallationID "
  else if gh.PrNum = none then .error "ErrorMissingAttribute: PrNum"
  else if gh.RepoName = none then .error "ErrorMissingAttribute: RepoName"
  else if gh.RepoOwner = none then .error "ErrorMissingAttribute: RepoOwner"
  else if gh.CheckRunName = none then .error "ErrorMissingAttribute: CheckRunName"
  else .ok ()

/-- Model of `github.CreateCheckRunOptions` restricted to the fields the
package sets: `Name`, `HeadBranch`, `HeadSHA`. -/
structure CreateCheckRunOptions where
  Name : String
  HeadBranch : String
  HeadSHA : String
deriving DecidableEq, Repr

/-- Model of `github.ListCheckRunsOptions` (`CheckName *string`,
`Filter *string`). -/
structure ListCheckRunsOptions where
  CheckName : Option String
  Filter : Option String
deriving DecidableEq, Repr

/-- Model of `github.CheckRunOutput` (`Title *string`, `Summary *string`). -/
structure CheckRunOutput where
  Title : Option String
  Summary : Option String
deriving DecidableEq, Repr

/-- Model of `github.UpdateCheckRunOptions` restricted to the fields the
package sets. `CompletedAt *Timestamp` is modelled as an optional `Nat`
clock reading. -/
structure UpdateCheckRunOptions where
  Name : String
  HeadBranch : Option String := none
  HeadSHA : Option String := none
  Status : Option String := none
  CompletedAt : Option Nat := none
  Conclusion : Option String := none
  Output : Option CheckRunOutput := none
deriving DecidableEq, Repr

/-- Modelled from the spec: the persisted subset of the Integration record
held by the State Store (`runsimaws.DdbTable`, whose source is outside
`src/`). Per the spec's data model only the identity/config fields are ever
persisted; `client`, `pullRequest` and `activeCheckRun` are transient. -/
structure StoredRecord where
  IntegrationType : Option String
  CheckRunName : Option String
  InstallationID : Option String
  IntegrationID : Option String
  RepoOwner : Option String
  RepoName : Option String
  PrNum : Option String
deriving DecidableEq, Repr

/-- Modelled from the spec: `PutState` marshals the Integration's persisted
identity/config fields into the store record (upsert). -/
def persistedRecord (gh : Integration) : StoredRecord :=
  ⟨gh.IntegrationType, gh.CheckRunName, gh.InstallationID, gh.IntegrationID,
   gh.RepoOwner, gh.RepoName, gh.PrNum⟩

/-- Modelled from the spec: `GetState` decodes the stored record into the
Integration's persisted fields, leaving the transient fields untouched. -/
def loadRecord (r : StoredRecord) (gh : Integration) : Integration :=
  { gh with IntegrationType := r.IntegrationType, CheckRunName := r.CheckRunName,
            InstallationID := r.InstallationID, IntegrationID := r.IntegrationID,
            RepoOwner := r.RepoOwner, RepoName := r.RepoName, PrNum := r.PrNum }

/-- One external call made by the package, recorded in execution order. -/
inductive Event where
  | putState : StoredRecord → Event
  | getState : Event
  | getParameter : String → Event
  | authenticate : Int → Int → String → Event
  | fetchPR : String → String → Int → Event
  | createRun : String → String → CreateCheckRunOptions → Event
  | listRuns : String → String → String → ListCheckRunsOptions → Event
  | getRun : String → String → Int → Event
  | updateRun : String → String → Int → UpdateCheckRunOptions → Event
deriving DecidableEq, Repr

/-- Responses of the three external collaborators. The store's success or
failure is a fixed response per call site (`putStateErr`, `getStateErr`);
the GitHub calls that Go multi-assigns (`result, _, err = ...`) return the
assigned value paired with the optional error, because the assignment
happens even when the error is non-nil. -/
structure Env where
  putStateErr : Option String
  getStateErr : Option String
  getParameter : String → Except String String
  ghappNew : Int → Int → String → Except String Nat
  pullRequestsGet : String → String → Int → Option PullRequest × Option String
  createCheckRun : String → String → CreateCheckRunOptions → Option CheckRun × Option String
  listCheckRunsForRef : String → String → String → ListCheckRunsOptions → Except String (List CheckRun)
  getCheckRun : String → String → Int → Option CheckRun × Option String
  updateCheckRun : String → String → Int → UpdateCheckRunOptions → Option CheckRun × Option String

/-- Result of a construction entry point: the mutated Integration (its
pointer receiver survives even an error or a panic), the store contents
after the call, the trace of external calls, and the outcome. -/
structure ConfigResult where
  gh : Integration
  store : Option StoredRecord
  trace : List Event
  outcome : Outcome
deriving Repr

/-- Result of a check-run operation. -/
structure OpResult where
  gh : Integration
  trace : List Event
  outcome : Outcome
deriving Repr

/-- Go's `err != nil` test after a multi-assignment call. -/
def outcomeOfErr : Option String → Outcome
  | none => .ok
  | some e => .err e

/-- `ConfigFromState`: bind the store, load the record for key "GitHub",
validate, fetch the signing secret, authenticate (sets `Client`), then
fetch the pull request (assigned to `PR` even when that call errors). -/
def ConfigFromState (env : Env) (store : Option StoredRecord)
    (gh : Integration) (awsRegion ghAccessTokenID : String) : ConfigResult :=
  let gh0 := { gh with State := some ⟨awsRegion, primaryKey, tableName⟩ }
  match env.getStateErr with
  | some e => ⟨gh0, store, [.getState], .err e⟩
  | none =>
    match store with
    | none => ⟨gh0, store, [.getState], .err "StateNotFound"⟩
    | some r =>
      let gh1 := loadRecord r gh0
      match ValidateState gh1 with
      | .error e => ⟨gh1, store, [.getState], .err e⟩
      | .ok _ =>
        match env.getParameter ghAccessTokenID with
        | .error e => ⟨gh1, store, [.getState, .getParameter ghAccessTokenID], .err e⟩
        | .ok privateKey =>
          let tr1 : List Event := [.getState, .getParameter ghAccessTokenID]
          match GetAppIntID gh1, GetAppInstID gh1 with
          | .ok appId, .ok instId =>
            match env.ghappNew appId instId privateKey with
            | .error e =>
              ⟨gh1, store, tr1 ++ [.authenticate appId instId privateKey], .err e⟩
            | .ok transport =>
              let tr2 := tr1 ++ [.authenticate appId instId privateKey]
              let gh2 := { gh1 with Client := some transport }
              match GetOwner gh2, GetRepo gh2, GetPrNum gh2 with
              | .ok owner, .ok repo, .ok prn =>
                let (prVal, prErr) := env.pullRequestsGet owner repo prn
                ⟨{ gh2 with PR := prVal }, store,
                  tr2 ++ [.fetchPR owner repo prn], outcomeOfErr prErr⟩
              | .fatal m, _, _ => ⟨gh2, store, tr2, .fatal m⟩
              | _, .fatal m, _ => ⟨gh2, store, tr2, .fatal m⟩
              | _, _, .fatal m => ⟨gh2, store, tr2, .fatal m⟩
          | .fatal m, _ => ⟨gh1, store, tr1, .fatal m⟩
          | _, .fatal m => ⟨gh1, store, tr1, .fatal m⟩

/-- `ConfigFromScratch`: assign the config fields from the arguments (with
`IntegrationType` fixed to "GitHub"), bind the store, persist the record
(upsert), then run the same secret/authenticate/fetch sequence. -/
def ConfigFromScratch (env : Env) (store : Option StoredRecord)
    (gh : Integration) (awsRegion privateKeyID repoOwner repoName checkRunName
    installationID integrationID prNum : String) : ConfigResult :=
  let gh1 := { gh with
    RepoOwner := some repoOwner, RepoName := some repoName,
    CheckRunName := some checkRunName, InstallationID := some installationID,
    IntegrationID := some integrationID, PrNum := some prNum,
    IntegrationType := some "GitHub",
    State := some ⟨awsRegion, primaryKey, tableName⟩ }
  let rec1 := persistedRecord gh1
  match env.putStateErr with
  | some e => ⟨gh1, store, [.putState rec1], .err e⟩
  | none =>
    let store1 := some rec1
    match env.getParameter privateKeyID with
    | .error e => ⟨gh1, store1, [.putState rec1, .getParameter privateKeyID], .err e⟩
    | .ok privateKey =>
      let tr1 : List Event := [.putState rec1, .getParameter privateKeyID]
      match GetAppIntID gh1, GetAppInstID gh1 with
      | .ok appId, .ok instId =>
        match env.ghappNew appId instId privateKey with
        | .error e =>
          ⟨gh1, store1, tr1 ++ [.authenticate appId instId privateKey], .err e⟩
        | .ok transport =>
          let tr2 := tr1 ++ [.authenticate appId instId privateKey]
          let gh2 := { gh1 with Client := some transport }
          match GetOwner gh2, GetRepo gh2, GetPrNum gh2 with
          | .ok owner, .ok repo, .ok prn =>
            let (prVal, prErr) := env.pullRequestsGet owner repo prn
            ⟨{ gh2 with PR := prVal }, store1,
              tr2 ++ [.fetchPR owner repo prn], outcomeOfErr prErr⟩
          | .fatal m, _, _ => ⟨gh2, store1, tr2, .fatal m⟩
          | _, .fatal m, _ => ⟨gh2, store1, tr2, .fatal m⟩
          | _, _, .fatal m => ⟨gh2, store1, tr2, .fatal m⟩
      | .fatal m, _ => ⟨gh1, store1, tr1, .fatal m⟩
      | _, .fatal m => ⟨gh1, store1, tr1, .fatal m⟩

/-- `CreateNewCheckRun`: create a run named `CheckRunName` on the PR's head
branch/SHA; the response is assigned to `ActiveCheckRun` even on error, and
on success `CheckRunName` is reassigned from the created run's `Name`
(a nil response would make that dereference panic). -/
def CreateNewCheckRun (env : Env) (gh : Integration) : OpResult :=
  match GetCheckRunName gh, gh.PR with
  | .ok name, some pr =>
    let opt : CreateCheckRunOptions :=
      ⟨name, headGetRef pr.Head, headGetSHA pr.Head⟩
    match GetOwner gh, GetRepo gh with
    | .ok owner, .ok repo =>
      let res := (env.createCheckRun owner repo opt).1
      let gh1 := { gh with ActiveCheckRun := res }
      match (env.createCheckRun owner repo opt).2 with
      | some msg => ⟨gh1, [.createRun owner repo opt], .err msg⟩
      | none =>
        match res with
        | none => ⟨gh1, [.createRun owner repo opt], .fatal "nil dereference"⟩
        | some cr =>
          ⟨{ gh1 with CheckRunName := cr.Name }, [.createRun owner repo opt], .ok⟩
    | .fatal m, _ => ⟨gh, [], .fatal m⟩
    | _, .fatal m => ⟨gh, [], .fatal m⟩
  | .fatal m, _ => ⟨gh, [], .fatal m⟩
  | _, none => ⟨gh, [], .fatal "nil dereference"⟩

/-- `SetActiveCheckRun`: list the latest check runs for the PR's head ref
filtered by `CheckRunName`; fail with `ErrorNoActiveCheckRunsFound` when
the list is empty or the first entry already has a non-empty conclusion,
otherwise install the first entry as `ActiveCheckRun`. -/
def SetActiveCheckRun (env : Env) (gh : Integration) : OpResult :=
  match GetOwner gh, GetRepo gh, GetCheckRunName gh, gh.PR with
  | .ok owner, .ok repo, .ok name, some pr =>
    let ref := headGetRef pr.Head
    let opt : ListCheckRunsOptions := ⟨some name, some "latest"⟩
    match env.listCheckRunsForRef owner repo ref opt with
    | .error e => ⟨gh, [.listRuns owner repo ref opt], .err e⟩
    | .ok runs =>
      match runs with
      | [] => ⟨gh, [.listRuns owner repo ref opt], .err "ErrorNoActiveCheckRunsFound"⟩
      | r :: _ =>
        if crGetConclusion (some r) ≠ "" then
          ⟨gh, [.listRuns owner repo ref opt], .err "ErrorNoActiveCheckRunsFound"⟩
        else
          ⟨{ gh with ActiveCheckRun := some r }, [.listRuns owner repo ref opt], .ok⟩
  | .fatal m, _, _, _ => ⟨gh, [], .fatal m⟩
  | _, .fatal m, _, _ => ⟨gh, [], .fatal m⟩
  | _, _, .fatal m, _ => ⟨gh, [], .fatal m⟩
  | _, _, _, none => ⟨gh, [], .fatal "nil dereference"⟩

/-- `UpdateActiveCheckRun`: re-fetch the active run by id; the response is
assigned to `ActiveCheckRun` even when the call errors. -/
def UpdateActiveCheckRun (env : Env) (gh : Integration) : OpResult :=
  match GetOwner gh, GetRepo gh with
  | .ok owner, .ok repo =>
    let id := crGetID gh.ActiveCheckRun
    ⟨{ gh with ActiveCheckRun := (env.getCheckRun owner repo id).1 },
      [.getRun owner repo id], outcomeOfErr (env.getCheckRun owner repo id).2⟩
  | .fatal m, _ => ⟨gh, [], .fatal m⟩
  | _, .fatal m => ⟨gh, [], .fatal m⟩

/-- The `UpdateCheckRunOptions` payload built by `ConcludeCheckRun`. -/
def concludeOptions (gh : Integration) (now : Nat)
    (summary conclusion : Option String) : UpdateCheckRunOptions :=
  { Name := crGetName gh.ActiveCheckRun,
    Status := some "completed",
    CompletedAt := some now,
    Conclusion := conclusion,
    Output := some ⟨some "Details", summary⟩ }

/-- `ConcludeCheckRun(summary, conclusion)`: push status "completed" with a
completion timestamp (`time.Now()`, the `now` parameter), the conclusion,
and the summary under the fixed "Details" title; the response is assigned
to `ActiveCheckRun` even when the call errors. -/
def ConcludeCheckRun (env : Env) (now : Nat) (gh : Integration)
    (summary conclusion : Option String) : OpResult :=
  match GetOwner gh, GetRepo gh with
  | .ok owner, .ok repo =>
    let opt := concludeOptions gh now summary conclusion
    let id := crGetID gh.ActiveCheckRun
    ⟨{ gh with ActiveCheckRun := (env.updateCheckRun owner repo id opt).1 },
      [.updateRun owner repo id opt], outcomeOfErr (env.updateCheckRun owner repo id opt).2⟩
  | .fatal m, _ => ⟨gh, [], .fatal m⟩
  | _, .fatal m => ⟨gh, [], .fatal m⟩

/-- The `UpdateCheckRunOptions` payload built by `UpdateCheckRunStatus`:
head branch/SHA are the PR head's raw pointer fields, and an output section
exists only when a summary was supplied. -/
def statusOptions (gh : Integration) (hd : PullRequestBranch)
    (status summary : Option String) : UpdateCheckRunOptions :=
  { Name := crGetName gh.ActiveCheckRun,
    HeadBranch := hd.Ref,
    HeadSHA := hd.SHA,
    Status := status,
    Output := if summary.isSome then some ⟨some "Details", summary⟩ else none }

/-- `UpdateCheckRunStatus(status, summary)`: push a status update preserving
the PR head branch/SHA (dereferencing `gh.PR.Head`, which panics when the
PR or its head is nil); the response is assigned to `ActiveCheckRun` even
when the call errors. -/
def UpdateCheckRunStatus (env : Env) (gh : Integration)
    (status summary : Option String) : OpResult :=
  match GetOwner gh, GetRepo gh, gh.PR with
  | .ok owner, .ok repo, some pr =>
    match pr.Head with
    | none => ⟨gh, [], .fatal "nil dereference"⟩
    | some hd =>
      let opt := statusOptions gh hd status summary
      let id := crGetID gh.ActiveCheckRun
      ⟨{ gh with ActiveCheckRun := (env.updateCheckRun owner repo id opt).1 },
        [.updateRun owner repo id opt], outcomeOfErr (env.updateCheckRun owner repo id opt).2⟩
  | .fatal m, _, _ => ⟨gh, [], .fatal m⟩
  | _, .fatal m, _ => ⟨gh, [], .fatal m⟩
  | _, _, none => ⟨gh, [], .fatal "nil dereference"⟩

/-- `DeleteState`: remove the store record for key "GitHub" (idempotent per
the spec's store contract; modelled from the spec since `runsimaws` is not
in `src/`). -/
def DeleteState (store : Option StoredRecord) (gh : Integration) :
    Option StoredRecord × Outcome :=
  match gh.State with
  | some _ => (none, .ok)
  | none => (store, .fatal "nil dereference")

/-- A sample fully-populated integration used by concrete witnesses. -/
def ghFull : Integration :=
  { Client := none, PR := none, ActiveCheckRun := none, State := none,
    IntegrationType := some "GitHub", CheckRunName := some "sim",
    InstallationID := some "11", IntegrationID := some "22",
    RepoOwner := some "owner", RepoName := some "repo", PrNum := some "33" }

/-- A benign environment in which every external call succeeds; witnesses
override individual responses. -/
def envBase : Env :=
  { putStateErr := none, getStateErr := none,
    getParameter := fun _ => .ok "key",
    ghappNew := fun _ _ _ => .ok 1,
    pullRequestsGet := fun _ _ _ => (some ⟨some ⟨some "main", some "sha1"⟩⟩, none),
    createCheckRun := fun _ _ o => (some ⟨some 1, some o.Name, none⟩, none),
    listCheckRunsForRef := fun _ _ _ _ => .ok [],
    getCheckRun := fun _ _ i => (some ⟨some i, some "sim", none⟩, none),
    updateCheckRun := fun _ _ i _ => (some ⟨some i, some "sim", none⟩, none) }

/-- A sample pull request with head branch and SHA set. -/
def prMain : PullRequest := ⟨some ⟨some "main", some "sha1"⟩⟩

/-- `ghFull` after a successful pull-request fetch. -/
def ghWithPR : Integration := { ghFull with PR := some prMain }

/-- A check run whose conclusion is still empty (active). -/
def crActive : CheckRun := ⟨some 5, some "sim", none⟩

/-- An environment whose check-run listing returns exactly `crActive`. -/
def envC2 : Env :=
  { envBase with listCheckRunsForRef := fun _ _ _ _ => .ok [crActive] }

/-- A completely unpopulated integration (all pointer fields nil). -/
def ghEmpty : Integration := {}

/-- Whether an event is the pull-request fetch. -/
def Event.isFetchPR : Event → Bool
  | .fetchPR _ _ _ => true
  | _ => false

/-- An environment whose state-store write fails. -/
def envPutFail : Env := { envBase with putStateErr := some "DdbDown" }

/-- An environment whose secret retrieval fails. -/
def envSsmFail : Env := { envBase with getParameter := fun _ => .error "SsmDown" }

/-- An environment whose pull-request fetch fails (returning a nil PR). -/
def envPRFail : Env :=
  { envBase with pullRequestsGet := fun _ _ _ => (none, some "PRFetchError") }

/-- An environment whose check-run creation succeeds but answers with a run
named differently from the requested name. -/
def envRename : Env :=
  { envBase with createCheckRun := fun _ _ _ => (some ⟨some 9, some "renamed", none⟩, none) }

/-- An environment whose check-run update and re-fetch calls fail, returning
a nil run alongside the error. -/
def envUpdFail : Env :=
  { envBase with
    updateCheckRun := fun _ _ _ _ => (none, some "UpdateFailed"),
    getCheckRun := fun _ _ _ => (none, some "GetFailed") }

/-- `b` agrees with `a` on every Integration field except `ActiveCheckRun`. -/
def sameExceptActive (a b : Integration) : Prop :=
  b.Client = a.Client ∧ b.PR = a.PR ∧ b.State = a.State ∧
  b.IntegrationType = a.IntegrationType ∧ b.CheckRunName = a.CheckRunName ∧
  b.InstallationID = a.InstallationID ∧ b.IntegrationID = a.IntegrationID ∧
  b.RepoOwner = a.RepoOwner ∧ b.RepoName = a.RepoName ∧ b.PrNum = a.PrNum

/-- `b` agrees with `a` on every field except `ActiveCheckRun` and
`CheckRunName`. -/
def sameExceptActiveAndName (a b : Integration) : Prop :=
  b.Client = a.Client ∧ b.PR = a.PR ∧ b.State = a.State ∧
  b.IntegrationType = a.IntegrationType ∧
  b.InstallationID = a.InstallationID ∧ b.IntegrationID = a.IntegrationID ∧
  b.RepoOwner = a.RepoOwner ∧ b.RepoName = a.RepoName ∧ b.PrNum = a.PrNum

/-- `ghWithPR` additionally holding an active check run. -/
def ghActive : Integration := { ghWithPR with ActiveCheckRun := some crActive }

/-- C1: `ValidateState` succeeds iff none of the six required fields is
absent; a missing field is reported by name, in the fixed source order
appId (`IntegrationID`), installationId (`InstallationID`), prNumber
(`PrNum`), `RepoName`, `RepoOwner`, `CheckRunName`, short-circuiting at
the first missing one. -/
theorem validateState_complete (gh : Integration) :
    (ValidateState gh = .ok () ↔
      gh.IntegrationID.isSome ∧ gh.InstallationID.isSome ∧ gh.PrNum.isSome ∧
      gh.RepoName.isSome ∧ gh.RepoOwner.isSome ∧ gh.CheckRunName.isSome)
    ∧ (gh.IntegrationID = none →
        ValidateState gh = .error "ErrorMissingAttribute: IntegrationID")
    ∧ (gh.IntegrationID.isSome → gh.InstallationID = none →
        ValidateState gh = .error "ErrorMissingAttribute: InstallationID ")
    ∧ (gh.IntegrationID.isSome → gh.InstallationID.isSome → gh.PrNum = none →
        ValidateState gh = .error "ErrorMissingAttribute: PrNum")
    ∧ (gh.IntegrationID.isSome → gh.InstallationID.isSome → gh.PrNum.isSome →
        gh.RepoName = none →
        ValidateState gh = .error "ErrorMissingAttribute: RepoName")
    ∧ (gh.IntegrationID.isSome → gh.InstallationID.isSome → gh.PrNum.isSome →
        gh.RepoName.isSome → gh.RepoOwner = none →
        ValidateState gh = .error "ErrorMissingAttribute: RepoOwner")
    ∧ (gh.IntegrationID.isSome → gh.InstallationID.isSome → gh.PrNum.isSome →
        gh.RepoName.isSome → gh.RepoOwner.isSome → gh.CheckRunName = none →
        ValidateState gh = .error "ErrorMissingAttribute: CheckRunName") := by
  unfold ValidateState
  constructor
  · constructor
    · intro h
      by_cases h1 : gh.IntegrationID = none <;> simp [h1] at h ⊢
      all_goals {
        by_cases h2 : gh.InstallationID = none <;> simp [h2] at h ⊢
        all_goals {
          by_cases h3 : gh.PrNum = none <;> simp [h3] at h ⊢
          all_goals {
            by_cases h4 : gh.RepoName = none <;> simp [h4] at h ⊢
            all_goals {
              by_cases h5 : gh.RepoOwner = none <;> simp [h5] at h ⊢
              all_goals {
                by_cases h6 : gh.CheckRunName = none <;>
                  simp_all [Option.isSome_iff_ne_none]
              }
            }
          }
        }
      }
    · rintro ⟨h1, h2, h3, h4, h5, h6⟩
      rw [Option.isSome_iff_ne_none] at h1 h2 h3 h4 h5 h6
      simp [h1, h2, h3, h4, h5, h6]
  · rw [Option.isSome_iff_ne_none, Option.isSome_iff_ne_none,
      Option.isSome_iff_ne_none, Option.isSome_iff_ne_none,
      Option.isSome_iff_ne_none]
    refine ⟨fun h1 => by simp [h1], ?_, ?_, ?_, ?_, ?_⟩ <;>
      intros <;> simp_all

/-- Witness for C1 at concrete inputs: the fully populated record
validates, and dropping `IntegrationID` alone is reported by name. -/
theorem validateState_complete_witness :
    ValidateState ghFull = .ok () ∧
    ValidateState { ghFull with IntegrationID := none } =
      .error "ErrorMissingAttribute: IntegrationID" :=
  ⟨(validateState_complete ghFull).1.mpr (by simp [ghFull]),
   (validateState_complete { ghFull with IntegrationID := none }).2.1 rfl⟩

/-- C2: given the host's reply to the listing call, `SetActiveCheckRun`
fails with `ErrorNoActiveCheckRunsFound` iff the list is empty or its first
(most recent) entry has a non-empty conclusion; on that failure the
Integration is unchanged, and otherwise the first entry becomes
`ActiveCheckRun` and the call succeeds. -/
theorem setActiveCheckRun_policy (env : Env) (gh : Integration)
    (owner repo name : String) (pr : PullRequest) (runs : List CheckRun)
    (hO : gh.RepoOwner = some owner) (hR : gh.RepoName = some repo)
    (hN : gh.CheckRunName = some name) (hP : gh.PR = some pr)
    (hL : env.listCheckRunsForRef owner repo (headGetRef pr.Head)
            ⟨some name, some "latest"⟩ = .ok runs) :
    ((SetActiveCheckRun env gh).outcome = .err "ErrorNoActiveCheckRunsFound" ↔
      runs = [] ∨ crGetConclusion runs.head? ≠ "")
    ∧ ((SetActiveCheckRun env gh).outcome = .err "ErrorNoActiveCheckRunsFound" →
        (SetActiveCheckRun env gh).gh = gh)
    ∧ (∀ r rest, runs = r :: rest → crGetConclusion (some r) = "" →
        (SetActiveCheckRun env gh).gh = { gh with ActiveCheckRun := some r } ∧
        (SetActiveCheckRun env gh).outcome = .ok) := by
  have e1 : GetOwner gh = .ok owner := by simp [GetOwner, hO]
  have e2 : GetRepo gh = .ok repo := by simp [GetRepo, hR]
  have e3 : GetCheckRunName gh = .ok name := by simp [GetCheckRunName, hN]
  simp only [SetActiveCheckRun, e1, e2, e3, hP, hL]
  cases runs with
  | nil => simp [crGetConclusion]
  | cons r rest =>
    by_cases hc : crGetConclusion (some r) = ""
    · simp [hc]
    · simp [hc]

/-- Witness for C2: against a one-entry listing whose conclusion is empty,
the call succeeds and installs that entry. -/
theorem setActiveCheckRun_policy_witness :
    (SetActiveCheckRun envC2 ghWithPR).gh =
      { ghWithPR with ActiveCheckRun := some crActive } ∧
    (SetActiveCheckRun envC2 ghWithPR).outcome = .ok :=
  (setActiveCheckRun_policy envC2 ghWithPR "owner" "repo" "sim" prMain
    [crActive] rfl rfl rfl rfl rfl).2.2 crActive [] rfl (by decide)

/-- C3: fresh construction always emits the store write of the
"GitHub"-typed record as its first external call, before any secret
retrieval or authentication; when that write fails, the trace is just the
attempted write (so the secret was never retrieved and no client was
constructed), the client field is unchanged, the store is unchanged, and
the error is returned. -/
theorem configFromScratch_persist_first (env : Env) (store : Option StoredRecord)
    (gh : Integration) (r kid ro rn crn iid gid pn : String) :
    (∃ rec,
      (ConfigFromScratch env store gh r kid ro rn crn iid gid pn).trace.head? =
        some (.putState rec) ∧ rec.IntegrationType = some "GitHub")
    ∧ (∀ e, env.putStateErr = some e →
        ∃ rec,
          (ConfigFromScratch env store gh r kid ro rn crn iid gid pn).trace =
            [Event.putState rec] ∧
          (ConfigFromScratch env store gh r kid ro rn crn iid gid pn).gh.Client =
            gh.Client ∧
          (ConfigFromScratch env store gh r kid ro rn crn iid gid pn).store = store ∧
          (ConfigFromScratch env store gh r kid ro rn crn iid gid pn).outcome = .err e) := by
  constructor
  · unfold ConfigFromScratch
    dsimp only
    repeat' split
    all_goals exact ⟨_, rfl, rfl⟩
  · intro e he
    unfold ConfigFromScratch
    rw [he]
    exact ⟨_, rfl, rfl, rfl, rfl⟩

/-- Witness for C3: with a failing store write, the only external call is
the write, the client stays nil, the store keeps its prior contents, and
the write error is returned. -/
theorem configFromScratch_persist_first_witness :
    ∃ rec,
      (ConfigFromScratch envPutFail none ghEmpty "r" "kid" "o" "rp" "cr" "1" "2" "3").trace =
        [Event.putState rec] ∧
      (ConfigFromScratch envPutFail none ghEmpty "r" "kid" "o" "rp" "cr" "1" "2" "3").gh.Client =
        ghEmpty.Client ∧
      (ConfigFromScratch envPutFail none ghEmpty "r" "kid" "o" "rp" "cr" "1" "2" "3").store =
        (none : Option StoredRecord) ∧
      (ConfigFromScratch envPutFail none ghEmpty "r" "kid" "o" "rp" "cr" "1" "2" "3").outcome =
        .err "DdbDown" :=
  (configFromScratch_persist_first envPutFail none ghEmpty
    "r" "kid" "o" "rp" "cr" "1" "2" "3").2 "DdbDown" rfl

/-- C4 fails as stated: with every step succeeding except the pull-request
fetch, `ConfigFromState` returns the fetch error yet the client field has
already been installed (the code sets `Client` before fetching the PR). -/
theorem config_partial_client_counterexample :
    (ConfigFromState envPRFail (some (persistedRecord ghFull)) ghEmpty "r" "tok").outcome =
      .err "PRFetchError" ∧
    (ConfigFromState envPRFail (some (persistedRecord ghFull)) ghEmpty "r" "tok").gh.Client =
      some 1 := by decide

/-- C4 amended: for both entry points, when the call returns an error
raised before the pull-request fetch (state load/write, validation, secret
retrieval, or client authentication), no client is installed; when the
returned error comes from the pull-request fetch, the client has already
been installed by then. -/
theorem config_client_boundary (env : Env) (store : Option StoredRecord)
    (gh gh2 : Integration) (region tok r kid ro rn crn iid gid pn : String) :
    (∀ e, (ConfigFromState env store gh region tok).outcome = .err e →
      ((ConfigFromState env store gh region tok).trace.any Event.isFetchPR = false →
        (ConfigFromState env store gh region tok).gh.Client = gh.Client) ∧
      ((ConfigFromState env store gh region tok).trace.any Event.isFetchPR = true →
        ∃ t, (ConfigFromState env store gh region tok).gh.Client = some t))
    ∧ (∀ e, (ConfigFromScratch env store gh2 r kid ro rn crn iid gid pn).outcome = .err e →
      ((ConfigFromScratch env store gh2 r kid ro rn crn iid gid pn).trace.any Event.isFetchPR = false →
        (ConfigFromScratch env store gh2 r kid ro rn crn iid gid pn).gh.Client = gh2.Client) ∧
      ((ConfigFromScratch env store gh2 r kid ro rn crn iid gid pn).trace.any Event.isFetchPR = true →
        ∃ t, (ConfigFromScratch env store gh2 r kid ro rn crn iid gid pn).gh.Client = some t)) := by
  constructor
  · intro e
    unfold ConfigFromState
    dsimp only [loadRecord]
    repeat' split
    all_goals intro he
    all_goals refine ⟨fun h2 => ?_, fun h2 => ?_⟩ <;> simp_all [Event.isFetchPR]
  · intro e
    unfold ConfigFromScratch
    dsimp only
    repeat' split
    all_goals intro he
    all_goals refine ⟨fun h2 => ?_, fun h2 => ?_⟩ <;> simp_all [Event.isFetchPR]

/-- Witness for the amended C4: a secret-retrieval failure during
resume-from-state leaves the client nil. -/
theorem config_client_boundary_witness :
    (ConfigFromState envSsmFail (some (persistedRecord ghFull)) ghEmpty "r" "tok").gh.Client =
      ghEmpty.Client :=
  ((config_client_boundary envSsmFail (some (persistedRecord ghFull)) ghEmpty ghEmpty
    "r" "tok" "r" "kid" "o" "rp" "cr" "1" "2" "3").1 "SsmDown" (by decide)).1 (by decide)

/-- C5: with the active check run set, `ConcludeCheckRun` makes exactly one
remote update whose payload has status "completed", a non-empty completion
timestamp, the given conclusion unchanged, and the given summary unchanged
under the fixed output title "Details". -/
theorem concludeCheckRun_payload (env : Env) (gh : Integration)
    (owner repo : String) (cr : CheckRun) (now : Nat)
    (summary conclusion : Option String)
    (hO : gh.RepoOwner = some owner) (hR : gh.RepoName = some repo)
    (hA : gh.ActiveCheckRun = some cr) :
    (ConcludeCheckRun env now gh summary conclusion).trace =
      [Event.updateRun owner repo (crGetID gh.ActiveCheckRun)
        (concludeOptions gh now summary conclusion)] ∧
    (concludeOptions gh now summary conclusion).Status = some "completed" ∧
    (concludeOptions gh now summary conclusion).CompletedAt ≠ none ∧
    (concludeOptions gh now summary conclusion).Conclusion = conclusion ∧
    (concludeOptions gh now summary conclusion).Output =
      some ⟨some "Details", summary⟩ := by
  have e1 : GetOwner gh = .ok owner := by simp [GetOwner, hO]
  have e2 : GetRepo gh = .ok repo := by simp [GetRepo, hR]
  exact ⟨by simp [ConcludeCheckRun, e1, e2], rfl,
    by simp [concludeOptions], rfl, rfl⟩

/-- Witness for C5 at concrete inputs. -/
theorem concludeCheckRun_payload_witness :
    (ConcludeCheckRun envBase 42 ghActive (some "all good") (some "success")).trace =
      [Event.updateRun "owner" "repo" (crGetID ghActive.ActiveCheckRun)
        (concludeOptions ghActive 42 (some "all good") (some "success"))] ∧
    (concludeOptions ghActive 42 (some "all good") (some "success")).Status =
      some "completed" ∧
    (concludeOptions ghActive 42 (some "all good") (some "success")).CompletedAt ≠
      none ∧
    (concludeOptions ghActive 42 (some "all good") (some "success")).Conclusion =
      some "success" ∧
    (concludeOptions ghActive 42 (some "all good") (some "success")).Output =
      some ⟨some "Details", some "all good"⟩ :=
  concludeCheckRun_payload envBase ghActive "owner" "repo" crActive 42
    (some "all good") (some "success") rfl rfl rfl

/-- C6: with the active check run and pull request set, the single remote
update made by `UpdateCheckRunStatus` carries the PR head's branch and SHA
unchanged and the given status; the payload has an output section (with the
fixed title "Details" and the given summary) exactly when a summary was
supplied. -/
theorem updateCheckRunStatus_payload (env : Env) (gh : Integration)
    (owner repo : String) (pr : PullRequest) (hd : PullRequestBranch)
    (cr : CheckRun) (status summary : Option String)
    (hO : gh.RepoOwner = some owner) (hR : gh.RepoName = some repo)
    (hP : gh.PR = some pr) (hH : pr.Head = some hd)
    (hA : gh.ActiveCheckRun = some cr) :
    (UpdateCheckRunStatus env gh status summary).trace =
      [Event.updateRun owner repo (crGetID gh.ActiveCheckRun)
        (statusOptions gh hd status summary)] ∧
    (statusOptions gh hd status summary).HeadBranch = hd.Ref ∧
    (statusOptions gh hd status summary).HeadSHA = hd.SHA ∧
    (statusOptions gh hd status summary).Status = status ∧
    (summary.isSome →
      (statusOptions gh hd status summary).Output = some ⟨some "Details", summary⟩) ∧
    (summary = none → (statusOptions gh hd status summary).Output = none) := by
  have e1 : GetOwner gh = .ok owner := by simp [GetOwner, hO]
  have e2 : GetRepo gh = .ok repo := by simp [GetRepo, hR]
  refine ⟨by simp [UpdateCheckRunStatus, e1, e2, hP, hH], rfl, rfl, rfl, ?_, ?_⟩
  · intro h; simp [statusOptions, h]
  · intro h; simp [statusOptions, h]

/-- Witness for C6 at concrete inputs (no summary supplied). -/
theorem updateCheckRunStatus_payload_witness :
    (UpdateCheckRunStatus envBase ghActive (some "in_progress") none).trace =
      [Event.updateRun "owner" "repo" (crGetID ghActive.ActiveCheckRun)
        (statusOptions ghActive ⟨some "main", some "sha1"⟩ (some "in_progress") none)] ∧
    (statusOptions ghActive ⟨some "main", some "sha1"⟩ (some "in_progress") none).HeadBranch =
      (⟨some "main", some "sha1"⟩ : PullRequestBranch).Ref ∧
    (statusOptions ghActive ⟨some "main", some "sha1"⟩ (some "in_progress") none).HeadSHA =
      (⟨some "main", some "sha1"⟩ : PullRequestBranch).SHA ∧
    (statusOptions ghActive ⟨some "main", some "sha1"⟩ (some "in_progress") none).Status =
      some "in_progress" ∧
    ((none : Option String).isSome →
      (statusOptions ghActive ⟨some "main", some "sha1"⟩ (some "in_progress") none).Output =
        some ⟨some "Details", none⟩) ∧
    ((none : Option String) = none →
      (statusOptions ghActive ⟨some "main", some "sha1"⟩ (some "in_progress") none).Output =
        none) :=
  updateCheckRunStatus_payload envBase ghActive "owner" "repo" prMain
    ⟨some "main", some "sha1"⟩ crActive (some "in_progress") none rfl rfl rfl rfl rfl

/-- C7: when the store write succeeds, fresh construction persists exactly
the identity/config record built from its arguments (the `StoredRecord`
type has no client/pullRequest/activeCheckRun component, so the transient
fields are excluded by construction), and resuming from that same store
reproduces exactly the originally supplied identity/config values on the
resumed Integration, whatever the rest of either environment does. -/
theorem state_roundtrip (env env2 : Env) (store0 : Option StoredRecord)
    (gh gh2 : Integration) (r kid ro rn crn iid gid pn r2 tok : String)
    (h1 : env.putStateErr = none) (h2 : env2.getStateErr = none) :
    (ConfigFromScratch env store0 gh r kid ro rn crn iid gid pn).store =
      some ⟨some "GitHub", some crn, some iid, some gid, some ro, some rn, some pn⟩
    ∧ ((ConfigFromState env2
          (ConfigFromScratch env store0 gh r kid ro rn crn iid gid pn).store
          gh2 r2 tok).gh.IntegrationType = some "GitHub"
       ∧ (ConfigFromState env2
            (ConfigFromScratch env store0 gh r kid ro rn crn iid gid pn).store
            gh2 r2 tok).gh.CheckRunName = some crn
       ∧ (ConfigFromState env2
            (ConfigFromScratch env store0 gh r kid ro rn crn iid gid pn).store
            gh2 r2 tok).gh.InstallationID = some iid
       ∧ (ConfigFromState env2
            (ConfigFromScratch env store0 gh r kid ro rn crn iid gid pn).store
            gh2 r2 tok).gh.IntegrationID = some gid
       ∧ (ConfigFromState env2
            (ConfigFromScratch env store0 gh r kid ro rn crn iid gid pn).store
            gh2 r2 tok).gh.RepoOwner = some ro
       ∧ (ConfigFromState env2
            (ConfigFromScratch env store0 gh r kid ro rn crn iid gid pn).store
            gh2 r2 tok).gh.RepoName = some rn
       ∧ (ConfigFromState env2
            (ConfigFromScratch env store0 gh r kid ro rn crn iid gid pn).store
            gh2 r2 tok).gh.PrNum = some pn) := by
  have hs : (ConfigFromScratch env store0 gh r kid ro rn crn iid gid pn).store =
      some ⟨some "GitHub", some crn, some iid, some gid, some ro, some rn, some pn⟩ := by
    unfold ConfigFromScratch
    rw [h1]
    dsimp only
    repeat' split
    all_goals rfl
  refine ⟨hs, ?_⟩
  rw [hs]
  unfold ConfigFromState
  rw [h2]
  dsimp only [loadRecord]
  repeat' split
  all_goals simp_all [ValidateState]

/-- Witness for C7 at concrete arguments. -/
theorem state_roundtrip_witness :
    (ConfigFromScratch envBase none ghEmpty "r" "kid" "o" "rp" "cr" "1" "2" "3").store =
      some ⟨some "GitHub", some "cr", some "1", some "2", some "o", some "rp", some "3"⟩
    ∧ ((ConfigFromState envBase
          (ConfigFromScratch envBase none ghEmpty "r" "kid" "o" "rp" "cr" "1" "2" "3").store
          ghEmpty "r2" "tok").gh.IntegrationType = some "GitHub"
       ∧ (ConfigFromState envBase
            (ConfigFromScratch envBase none ghEmpty "r" "kid" "o" "rp" "cr" "1" "2" "3").store
            ghEmpty "r2" "tok").gh.CheckRunName = some "cr"
       ∧ (ConfigFromState envBase
            (ConfigFromScratch envBase none ghEmpty "r" "kid" "o" "rp" "cr" "1" "2" "3").store
            ghEmpty "r2" "tok").gh.InstallationID = some "1"
       ∧ (ConfigFromState envBase
            (ConfigFromScratch envBase none ghEmpty "r" "kid" "o" "rp" "cr" "1" "2" "3").store
            ghEmpty "r2" "tok").gh.IntegrationID = some "2"
       ∧ (ConfigFromState envBase
            (ConfigFromScratch envBase none ghEmpty "r" "kid" "o" "rp" "cr" "1" "2" "3").store
            ghEmpty "r2" "tok").gh.RepoOwner = some "o"
       ∧ (ConfigFromState envBase
            (ConfigFromScratch envBase none ghEmpty "r" "kid" "o" "rp" "cr" "1" "2" "3").store
            ghEmpty "r2" "tok").gh.RepoName = some "rp"
       ∧ (ConfigFromState envBase
            (ConfigFromScratch envBase none ghEmpty "r" "kid" "o" "rp" "cr" "1" "2" "3").store
            ghEmpty "r2" "tok").gh.PrNum = some "3") :=
  state_roundtrip envBase envBase none ghEmpty ghEmpty
    "r" "kid" "o" "rp" "cr" "1" "2" "3" "r2" "tok" rfl rfl

/-- C8: when the stored identifier string parses as an integer the numeric
accessors return that integer, and when it does not parse the accessor hits
the panic branch (`Fatal.fatal`, which the return type makes uncatchable as
an ordinary error); under the valid-integer precondition the fatal branch
is unreachable. -/
theorem numeric_accessors_fatal (gh : Integration) (s : String) (n : Int) :
    (gh.PrNum = some s → atoi s = some n → GetPrNum gh = .ok n)
    ∧ (gh.PrNum = some s → atoi s = none → GetPrNum gh = .fatal "strconv.Atoi")
    ∧ (gh.InstallationID = some s → atoi s = some n → GetAppInstID gh = .ok n)
    ∧ (gh.InstallationID = some s → atoi s = none →
        GetAppInstID gh = .fatal "strconv.Atoi")
    ∧ (gh.IntegrationID = some s → atoi s = some n → GetAppIntID gh = .ok n)
    ∧ (gh.IntegrationID = some s → atoi s = none →
        GetAppIntID gh = .fatal "strconv.Atoi")
    ∧ (gh.PrNum = some s → atoi s = some n → ∀ m, GetPrNum gh ≠ .fatal m)
    ∧ (gh.InstallationID = some s → atoi s = some n →
        ∀ m, GetAppInstID gh ≠ .fatal m)
    ∧ (gh.IntegrationID = some s → atoi s = some n →
        ∀ m, GetAppIntID gh ≠ .fatal m) := by
  refine ⟨?_, ?_, ?_, ?_, ?_, ?_, ?_, ?_, ?_⟩ <;> intro h1 h2 <;>
    simp [GetPrNum, GetAppInstID, GetAppIntID, h1, h2]

/-- Witness for C8: "33" parses, so `GetPrNum` returns 33; "33x" does not
parse, so `GetPrNum` hits the fatal branch; "9223372036854775808" (2^63) is
out of Go's int range (`ErrRange`), so `GetPrNum` hits the fatal branch. -/
theorem numeric_accessors_fatal_witness :
    GetPrNum ghFull = .ok 33 ∧
    GetPrNum { ghFull with PrNum := some "33x" } = .fatal "strconv.Atoi" ∧
    GetPrNum { ghFull with PrNum := some "9223372036854775808" } =
      .fatal "strconv.Atoi" :=
  ⟨(numeric_accessors_fatal ghFull "33" 33).1 rfl (by decide),
   (numeric_accessors_fatal { ghFull with PrNum := some "33x" } "33x" 33).2.1 rfl
     (by decide),
   (numeric_accessors_fatal { ghFull with PrNum := some "9223372036854775808" }
     "9223372036854775808" 33).2.1 rfl (by decide)⟩

/-- C9 fails as stated: `CreateNewCheckRun` also mutates `CheckRunName`
(line 113 reassigns it from the created run's name), observable when the
host responds with a run named differently from the requested name. -/
theorem checkrun_frame_counterexample :
    (CreateNewCheckRun envRename ghWithPR).gh.CheckRunName ≠ ghWithPR.CheckRunName ∧
    (CreateNewCheckRun envRename ghWithPR).outcome = .ok := by decide

/-- C9 amended: `SetActiveCheckRun`, `UpdateActiveCheckRun`,
`UpdateCheckRunStatus` and `ConcludeCheckRun` mutate the Integration only
through `ActiveCheckRun`; `CreateNewCheckRun` additionally reassigns
`CheckRunName` (on success, to the created run's name) and leaves every
other field unchanged. -/
theorem checkrun_ops_frame (env : Env) (gh : Integration)
    (status summary conclusion : Option String) (now : Nat) :
    sameExceptActive gh (SetActiveCheckRun env gh).gh
    ∧ sameExceptActive gh (UpdateActiveCheckRun env gh).gh
    ∧ sameExceptActive gh (UpdateCheckRunStatus env gh status summary).gh
    ∧ sameExceptActive gh (ConcludeCheckRun env now gh summary conclusion).gh
    ∧ sameExceptActiveAndName gh (CreateNewCheckRun env gh).gh
    ∧ ((CreateNewCheckRun env gh).outcome = .ok →
        (CreateNewCheckRun env gh).gh.CheckRunName =
          (CreateNewCheckRun env gh).gh.ActiveCheckRun.bind (·.Name)) := by
  refine ⟨?_, ?_, ?_, ?_, ?_, ?_⟩
  · unfold SetActiveCheckRun
    dsimp only
    repeat' split
    all_goals simp [sameExceptActive]
  · unfold UpdateActiveCheckRun
    dsimp only
    repeat' split
    all_goals simp [sameExceptActive]
  · unfold UpdateCheckRunStatus
    dsimp only
    repeat' split
    all_goals simp [sameExceptActive]
  · unfold ConcludeCheckRun
    dsimp only
    repeat' split
    all_goals simp [sameExceptActive]
  · unfold CreateNewCheckRun
    dsimp only
    repeat' split
    all_goals simp [sameExceptActiveAndName]
  · unfold CreateNewCheckRun
    dsimp only
    repeat' split
    all_goals intro h
    all_goals simp_all

/-- Witness for the amended C9 at concrete inputs. -/
theorem checkrun_ops_frame_witness :
    sameExceptActive ghActive (SetActiveCheckRun envC2 ghActive).gh ∧
    ((CreateNewCheckRun envRename ghActive).outcome = .ok →
      (CreateNewCheckRun envRename ghActive).gh.CheckRunName =
        (CreateNewCheckRun envRename ghActive).gh.ActiveCheckRun.bind (·.Name)) :=
  ⟨(checkrun_ops_frame envC2 ghActive none none none 0).1,
   (checkrun_ops_frame envRename ghActive none none none 0).2.2.2.2.2⟩

/-- C10 (implicit): `UpdateActiveCheckRun`, `ConcludeCheckRun` and
`UpdateCheckRunStatus` always overwrite `ActiveCheckRun` with whatever the
remote call returned — including on error, where the returned value may be
nil — and surface the call's error; the previous snapshot is not retained,
so these operations are not atomic on error. -/
theorem update_ops_overwrite_on_error (env : Env) (gh : Integration)
    (owner repo : String) (pr : PullRequest) (hd : PullRequestBranch)
    (status summary conclusion : Option String) (now : Nat)
    (hO : gh.RepoOwner = some owner) (hR : gh.RepoName = some repo)
    (hP : gh.PR = some pr) (hH : pr.Head = some hd) :
    ((UpdateActiveCheckRun env gh).gh.ActiveCheckRun =
        (env.getCheckRun owner repo (crGetID gh.ActiveCheckRun)).1
      ∧ (∀ e, (env.getCheckRun owner repo (crGetID gh.ActiveCheckRun)).2 = some e →
          (UpdateActiveCheckRun env gh).outcome = .err e))
    ∧ ((ConcludeCheckRun env now gh summary conclusion).gh.ActiveCheckRun =
        (env.updateCheckRun owner repo (crGetID gh.ActiveCheckRun)
          (concludeOptions gh now summary conclusion)).1
      ∧ (∀ e, (env.updateCheckRun owner repo (crGetID gh.ActiveCheckRun)
            (concludeOptions gh now summary conclusion)).2 = some e →
          (ConcludeCheckRun env now gh summary conclusion).outcome = .err e))
    ∧ ((UpdateCheckRunStatus env gh status summary).gh.ActiveCheckRun =
        (env.updateCheckRun owner repo (crGetID gh.ActiveCheckRun)
          (statusOptions gh hd status summary)).1
      ∧ (∀ e, (env.updateCheckRun owner repo (crGetID gh.ActiveCheckRun)
            (statusOptions gh hd status summary)).2 = some e →
          (UpdateCheckRunStatus env gh status summary).outcome = .err e)) := by
  have e1 : GetOwner gh = .ok owner := by simp [GetOwner, hO]
  have e2 : GetRepo gh = .ok repo := by simp [GetRepo, hR]
  refine ⟨⟨?_, ?_⟩, ⟨?_, ?_⟩, ⟨?_, ?_⟩⟩
  · simp [UpdateActiveCheckRun, e1, e2]
  · intro e he; simp [UpdateActiveCheckRun, e1, e2, he, outcomeOfErr]
  · simp [ConcludeCheckRun, e1, e2]
  · intro e he; simp [ConcludeCheckRun, e1, e2, he, outcomeOfErr]
  · simp [UpdateCheckRunStatus, e1, e2, hP, hH]
  · intro e he; simp [UpdateCheckRunStatus, e1, e2, hP, hH, he, outcomeOfErr]

/-- Witness for C10: a failing re-fetch replaces the active run with the
returned nil and surfaces the error. -/
theorem update_ops_overwrite_on_error_witness :
    (UpdateActiveCheckRun envUpdFail ghActive).gh.ActiveCheckRun =
      (envUpdFail.getCheckRun "owner" "repo" (crGetID ghActive.ActiveCheckRun)).1 ∧
    (UpdateActiveCheckRun envUpdFail ghActive).outcome = .err "GetFailed" :=
  ⟨(update_ops_overwrite_on_error envUpdFail ghActive "owner" "repo" prMain
      ⟨some "main", some "sha1"⟩ none none none 0 rfl rfl rfl rfl).1.1,
   (update_ops_overwrite_on_error envUpdFail ghActive "owner" "repo" prMain
      ⟨some "main", some "sha1"⟩ none none none 0 rfl rfl rfl rfl).1.2
     "GetFailed" rfl⟩
